import Mathlib

/-!
Verification of the X12-837 claim-viewer parser (`parser_for_viewer.py`).

The development shallowly embeds the parser's interpretation loop: the
external EDI reader is abstracted as an ordered list of segments, each a
list of string elements whose head is the segment tag (the Python code
obtains `elements` by splitting `str(segment)` on `*`, so `elements[0]`
is the tag and the data elements start at index 1).  Python dictionaries
whose key sets are statically evident in the source are embedded as
structures with `Option` fields (`none` = key absent); the mutable
address dictionaries, which the source shares by reference between
records, are embedded as an explicit heap (`List Addr`) with records
holding indices into it, so that Python's aliasing semantics is visible.
Python `float` values produced by `safe_float` are embedded as exact
canonical decimals via a parser for the decimal-literal fragment of
Python's `float` grammar; `int` likewise.
-/

namespace X12

/-- Python `elements[i] if len(elements) > i else ""` — positional access
with an empty-string default. -/
def elemAt (es : List String) (i : Nat) : String := es.getD i ""

/-- Python character-based slicing `s[a:b]` (for `a ≤ b` within bounds,
which is the only use in the source). -/
def pySlice (s : String) (a b : Nat) : String :=
  String.mk ((s.data.drop a).take (b - a))

/-- Embeds `parse_date`: convert `YYYYMMDD` to `YYYY-MM-DD`.  The source
checks only `len(date_str) != 8`, not digitness. -/
def parse_date (date_str : String) : String :=
  if date_str = "" ∨ date_str.length ≠ 8 then date_str
  else pySlice date_str 0 4 ++ "-" ++ pySlice date_str 4 6 ++ "-" ++ pySlice date_str 6 8

/-- Embeds `parse_time`: convert `HHMM` to `HH:MM`. -/
def parse_time (time_str : String) : String :=
  if time_str = "" ∨ time_str.length < 4 then time_str
  else pySlice time_str 0 2 ++ ":" ++ pySlice time_str 2 4

/-- Python `sep in s` for a single-character separator. -/
def pyContains (s : String) (c : Char) : Bool := s.data.contains c

/-- Python `s.split(sep)` for a single-character separator, on the
character list of `s`; always returns a non-empty list of pieces. -/
def pySplit (sep : Char) : List Char → List (List Char)
  | [] => [[]]
  | c :: cs =>
    match pySplit sep cs with
    | [] => [[c]]
    | h :: t => if c = sep then [] :: h :: t else (c :: h) :: t

/-- Python `s.split(sep)` returning strings. -/
def pySplitStr (sep : Char) (s : String) : List String :=
  (pySplit sep s.data).map String.mk

/-- Embeds `clean_code`: `code.split(":")[-1] if ":" in code else code`,
with `""` for falsy input. -/
def clean_code (code : String) : String :=
  if code = "" then ""
  else if pyContains code ':' then (pySplitStr ':' code).getLastD "" else code

/-- The whitespace characters removed by Python `str.strip()` (the ASCII
ones; the repository's element values are ASCII). -/
def isPySpace (c : Char) : Bool :=
  c = ' ' ∨ c = '\t' ∨ c = '\n' ∨ c = '\r' ∨ c = '\x0b' ∨ c = '\x0c'

/-- Python `str.strip()` on a character list. -/
def pyStrip (l : List Char) : List Char :=
  ((l.dropWhile isPySpace).reverse.dropWhile isPySpace).reverse

/-- Embeds the cleaning step of `safe_int`/`safe_float`:
`str(value).replace('~', '').strip()` (removing every tilde, then
stripping surrounding whitespace). -/
def cleanValue (value : String) : String :=
  String.mk (pyStrip (value.data.filter (fun c => c ≠ '~')))

/-- Characters consumed, then remaining input, for a run of ASCII digits. -/
def spanDigits : List Char → List Char × List Char
  | [] => ([], [])
  | c :: cs =>
    if c.isDigit then
      let p := spanDigits cs
      (c :: p.1, p.2)
    else ([], c :: cs)

/-- Numeric value of a digit run. -/
def digitsToNat (l : List Char) : Nat :=
  l.foldl (fun a c => a * 10 + (c.toNat - '0'.toNat)) 0

/-- Optional leading sign; returns (isNegative, rest). -/
def parseSign : List Char → Bool × List Char
  | '+' :: cs => (false, cs)
  | '-' :: cs => (true, cs)
  | cs => (false, cs)

/-- Python `int(s)` on an already-stripped string, modelled on the
ASCII-decimal fragment of its grammar: optional sign then digits. -/
def pyInt? (s : String) : Option Int :=
  let p := parseSign s.data
  let d := spanDigits p.2
  if d.1.isEmpty || !d.2.isEmpty then none
  else some (if p.1 then -(digitsToNat d.1 : Int) else (digitsToNat d.1 : Int))

/-- Mantissa of a Python float literal: `D+ (. D*)? | . D+`.  Returns the
digits' value, the number of fractional digits, and the remaining input. -/
def parseMantissa? (l : List Char) : Option (Nat × Nat × List Char) :=
  let ip := spanDigits l
  match ip.2 with
  | '.' :: r2 =>
    let fp := spanDigits r2
    if ip.1.isEmpty && fp.1.isEmpty then none
    else some (digitsToNat (ip.1 ++ fp.1), fp.1.length, fp.2)
  | _ => if ip.1.isEmpty then none else some (digitsToNat ip.1, 0, ip.2)

/-- Optional exponent part `([eE] [+-]? D+)?`; `none` marks a syntax error. -/
def parseExp? : List Char → Option (Int × List Char)
  | [] => some (0, [])
  | c :: cs =>
    if c = 'e' ∨ c = 'E' then
      let p := parseSign cs
      let d := spanDigits p.2
      if d.1.isEmpty then none
      else some (if p.1 then -(digitsToNat d.1 : Int) else (digitsToNat d.1 : Int), d.2)
    else some (0, c :: cs)

/-- A Python float arising from `float()` of a decimal literal, embedded
as the exact decimal `num / 10 ^ den10` in canonical form (`den10 = 0`,
or `num` not divisible by 10), so that structural equality is value
equality.  The source only stores and reports these values — it never
does arithmetic on them — so the binary-rounding of CPython floats is
irrelevant to every claim and is not modelled. -/
structure PyFloat where
  num : Int
  den10 : Nat
deriving Repr, DecidableEq

/-- Canonicalize `n / 10 ^ k` by cancelling factors of 10. -/
def canonDec : Int → Nat → PyFloat
  | n, 0 => ⟨n, 0⟩
  | n, k + 1 => if n % 10 = 0 then canonDec (n / 10) k else ⟨n, k + 1⟩

/-- The float `0.0`. -/
def pyZero : PyFloat := ⟨0, 0⟩

/-- `10 ^ k` on naturals. -/
def pow10 (k : Nat) : Nat := 10 ^ k

/-- Python `float(s)` on an already-stripped string, modelled on the
finite decimal-literal fragment of its grammar. -/
def pyFloat? (s : String) : Option PyFloat := do
  let p := parseSign s.data
  let m ← parseMantissa? p.2
  let e ← parseExp? m.2.2
  if e.2.isEmpty then
    let sn : Int := if p.1 then -(m.1 : Int) else (m.1 : Int)
    let d : Int := (m.2.1 : Int) - e.1
    if 0 ≤ d then pure (canonDec sn d.toNat)
    else pure (canonDec (sn * (pow10 (-d).toNat : Int)) 0)
  else none

/-- Embeds `safe_int`: clean, then parse, falling back to `default` on
empty or unparseable input (Python catches the `ValueError`). -/
def safe_int (value : String) (default : Int) : Int :=
  if value = "" then default
  else
    let cleaned := cleanValue value
    if cleaned = "" then default else (pyInt? cleaned).getD default

/-- Embeds `safe_float`: clean, then parse, falling back to `default` on
empty or unparseable input (Python catches the `ValueError`). -/
def safe_float (value : String) (default : PyFloat) : PyFloat :=
  if value = "" then default
  else
    let cleaned := cleanValue value
    if cleaned = "" then default else (pyFloat? cleaned).getD default

/-- An address dictionary (`temp_addresses` entries and the `{}` created
by the entity-introduction branches).  `none` means the key is absent. -/
structure Addr where
  street : Option String
  city : Option String
  state : Option String
  zip : Option String
deriving Repr, DecidableEq

/-- The address dictionary with no keys (`{}` in the source). -/
def emptyAddr : Addr := ⟨none, none, none, none⟩

/-- The `transaction` dictionary (`ST`/`BHT` fields). -/
structure Transaction where
  type : Option String
  controlNumber : Option String
  version : Option String
  purpose : Option String
  referenceId : Option String
  date : Option String
  time : Option String
deriving Repr, DecidableEq

def emptyTransaction : Transaction := ⟨none, none, none, none, none, none, none⟩

/-- The submitter's `contact` sub-dictionary (from `PER`). -/
structure Contact where
  name : String
  phone : String
  extension : String
deriving Repr, DecidableEq

/-- The `submitter` dictionary. -/
structure Submitter where
  name : Option String
  id : Option String
  contact : Option Contact
deriving Repr, DecidableEq

def emptySubmitter : Submitter := ⟨none, none, none⟩

/-- The `receiver` dictionary. -/
structure Receiver where
  name : Option String
  id : Option String
deriving Repr, DecidableEq

def emptyReceiver : Receiver := ⟨none, none⟩

/-- A provider dictionary (`billing_provider`, `pay_to_provider`, and the
claim-scoped `serviceFacility` share this key set: name, taxId, address).
The `address` field is a reference into the address heap, mirroring the
Python dict object stored under that key. -/
structure Provider where
  name : Option String
  taxId : Option String
  address : Option Nat
deriving Repr, DecidableEq

def emptyProvider : Provider := ⟨none, none, none⟩

/-- The `subscriber` dictionary (`NM1*IL`, `SBR`, `DMG`, address). -/
structure Subscriber where
  firstName : Option String
  lastName : Option String
  id : Option String
  address : Option Nat
  relationship : Option String
  groupNumber : Option String
  planType : Option String
  dob : Option String
  sex : Option String
deriving Repr, DecidableEq

def emptySubscriber : Subscriber := ⟨none, none, none, none, none, none, none, none, none⟩

/-- A payer dictionary (transaction-level `payer` or a claim's `payer`). -/
structure PayerRec where
  name : Option String
  payerId : Option String
deriving Repr, DecidableEq

def emptyPayer : PayerRec := ⟨none, none⟩

/-- A claim-scoped rendering-provider dictionary; all-`none` is the `{}`
default the record builder uses. -/
structure RenderingRec where
  firstName : Option String
  lastName : Option String
  npi : Option String
deriving Repr, DecidableEq

def emptyRendering : RenderingRec := ⟨none, none, none⟩

/-- The `indicators` sub-dictionary of a claim. -/
structure Indicators where
  assigned : String
  providerSignature : String
  releaseInfo : String
  patientSignature : String
  relatedCause : String
deriving Repr, DecidableEq

/-- The `diagnosis` sub-dictionary of a claim. -/
structure Diagnosis where
  primary : String
  secondary : List String
deriving Repr, DecidableEq

/-- A service-line dictionary (created by `LX`, updated by `SV1`).
`placeOfService` is `none` until `SV1` adds the key. -/
structure ServiceLine where
  lineNumber : Int
  codeQualifier : String
  procedureCode : String
  charge : PyFloat
  unitQualifier : String
  units : PyFloat
  diagnosisPointer : String
  emergencyIndicator : String
  serviceDate : String
  placeOfService : Option String
deriving Repr, DecidableEq

/-- A claim dictionary.  `payer`, `renderingProvider` and
`serviceFacility` are `none` until the claim-scoped `NM1` adds them. -/
structure Claim where
  id : String
  totalCharge : PyFloat
  placeOfService : String
  serviceType : String
  indicators : Indicators
  onsetDate : String
  clearinghouseClaimNumber : String
  diagnosis : Diagnosis
  serviceLines : List ServiceLine
  payer : Option PayerRec
  renderingProvider : Option RenderingRec
  serviceFacility : Option Provider
deriving Repr, DecidableEq

/-- The interpreter state: the local variables of
`parse_x12_for_viewer`'s loop.  (`temp_demographics` and `temp_contacts`
exist in the source but are never read or written after initialization,
so they are not modelled.)  `heap` is the store of address dict objects;
`temp_addresses` maps the current-entity key — possibly Python `None` —
to a heap reference. -/
structure St where
  transaction : Transaction
  submitter : Submitter
  receiver : Receiver
  billing_provider : Provider
  pay_to_provider : Provider
  subscriber : Subscriber
  payer : PayerRec
  current_claim : Option Claim
  claims_data : List Claim
  temp_addresses : List (Option String × Nat)
  current_entity : Option String
  heap : List Addr
deriving Repr, DecidableEq

/-- The state at loop entry (all dictionaries empty, no claim open). -/
def initSt : St :=
  { transaction := emptyTransaction
    submitter := emptySubmitter
    receiver := emptyReceiver
    billing_provider := emptyProvider
    pay_to_provider := emptyProvider
    subscriber := emptySubscriber
    payer := emptyPayer
    current_claim := none
    claims_data := []
    temp_addresses := []
    current_entity := none
    heap := [] }

/-- Python dict assignment `m[k] = v` for the `temp_addresses` dict. -/
def assocSet (m : List (Option String × Nat)) (k : Option String) (v : Nat) :
    List (Option String × Nat) :=
  match m with
  | [] => [(k, v)]
  | (k', v') :: rest => if k' = k then (k, v) :: rest else (k', v') :: assocSet rest k v

/-- Python dict lookup (`k in m` / `m[k]`) for `temp_addresses`. -/
def assocGet? (m : List (Option String × Nat)) (k : Option String) : Option Nat :=
  match m with
  | [] => none
  | (k', v') :: rest => if k' = k then some v' else assocGet? rest k

/-- Read an address object from the heap. -/
def heapGet (h : List Addr) (r : Nat) : Addr := h.getD r emptyAddr

/-- Overwrite an address object in the heap (in-place dict mutation). -/
def heapSet (h : List Addr) (r : Nat) (a : Addr) : List Addr := h.set r a

/-- `ISA` branch: receiver name/id from element 8, submitter name from 6. -/
def stepISA (st : St) (es : List String) : St :=
  { st with
    receiver := { name := some (elemAt es 8), id := some (elemAt es 8) }
    submitter := { st.submitter with name := some (elemAt es 6) } }

/-- `ST` branch: transaction type, control number, version. -/
def stepST (st : St) (es : List String) : St :=
  { st with transaction :=
      { st.transaction with
        type := some (elemAt es 1)
        controlNumber := some (elemAt es 2)
        version := some (elemAt es 3) } }

/-- `BHT` branch: purpose, reference id, date, time. -/
def stepBHT (st : St) (es : List String) : St :=
  { st with transaction :=
      { st.transaction with
        purpose := some (elemAt es 1)
        referenceId := some (elemAt es 3)
        date := some (parse_date (elemAt es 4))
        time := some (parse_time (elemAt es 5)) } }

/-- `NM1` branch: classify the entity code and route the entity data.
The source also reads `elements[2]` (entity type) and `elements[8]`
(id qualifier) into `entity_data`, but never uses them.  An unrecognized
code falls through every `elif` and changes nothing. -/
def stepNM1 (st : St) (es : List String) : St :=
  let entity_code := elemAt es 1
  let name := elemAt es 3
  let firstName := elemAt es 4
  let lastName := elemAt es 3
  let id := elemAt es 9
  if entity_code = "41" then
    { st with
      current_entity := some "submitter"
      submitter := { st.submitter with name := some name, id := some id } }
  else if entity_code = "40" then
    { st with
      current_entity := some "receiver"
      receiver := { name := some name, id := some id } }
  else if entity_code = "85" then
    { st with
      current_entity := some "billing_provider"
      billing_provider := { name := some name, taxId := some id, address := some st.heap.length }
      heap := st.heap ++ [emptyAddr] }
  else if entity_code = "87" then
    { st with
      current_entity := some "pay_to_provider"
      pay_to_provider := { name := some name, taxId := some id, address := some st.heap.length }
      heap := st.heap ++ [emptyAddr] }
  else if entity_code = "IL" then
    { st with
      current_entity := some "subscriber"
      subscriber := { st.subscriber with
                      firstName := some firstName
                      lastName := some lastName
                      id := some id
                      address := some st.heap.length }
      heap := st.heap ++ [emptyAddr] }
  else if entity_code = "PR" then
    match st.current_claim with
    | some c =>
      { st with
        current_entity := some "payer"
        current_claim := some ({ c with payer := some ({ name := some name, payerId := some id } : PayerRec) }) }
    | none =>
      { st with
        current_entity := some "payer"
        payer := { name := some name, payerId := some id } }
  else if entity_code = "82" then
    match st.current_claim with
    | some c =>
      { st with
        current_entity := some "rendering_provider"
        current_claim :=
          some ({ c with renderingProvider := some ({ firstName := some firstName, lastName := some lastName, npi := some id } : RenderingRec) }) }
    | none => { st with current_entity := some "rendering_provider" }
  else if entity_code = "77" then
    match st.current_claim with
    | some c =>
      { st with
        current_entity := some "service_facility"
        current_claim :=
          some ({ c with serviceFacility := some ({ name := some name, taxId := some id, address := some st.heap.length } : Provider) })
        heap := st.heap ++ [emptyAddr] }
    | none => { st with current_entity := some "service_facility" }
  else st

/-- `N3` branch: allocate a fresh `{street: ...}` dict and bind it under
the current entity (which may be Python `None`). -/
def stepN3 (st : St) (es : List String) : St :=
  { st with
    temp_addresses := assocSet st.temp_addresses st.current_entity st.heap.length
    heap := st.heap ++ [{ emptyAddr with street := some (elemAt es 1) }] }

/-- `N4` branch: if the current entity has a pending address, mutate it
in place with city/state/zip, then attach the same object to the matching
party record. -/
def stepN4 (st : St) (es : List String) : St :=
  match assocGet? st.temp_addresses st.current_entity with
  | none => st
  | some r =>
    let a := heapGet st.heap r
    let a' := { a with
                city := some (elemAt es 1)
                state := some (elemAt es 2)
                zip := some (elemAt es 3) }
    let st' := { st with heap := heapSet st.heap r a' }
    if st.current_entity = some "billing_provider" then
      { st' with billing_provider := { st'.billing_provider with address := some r } }
    else if st.current_entity = some "pay_to_provider" then
      { st' with pay_to_provider := { st'.pay_to_provider with address := some r } }
    else if st.current_entity = some "subscriber" then
      { st' with subscriber := { st'.subscriber with address := some r } }
    else if st.current_entity = some "service_facility" ∧ st.current_claim.isSome then
      match st'.current_claim with
      | some c =>
        match c.serviceFacility with
        | some f =>
          { st' with current_claim :=
                       some ({ c with serviceFacility := some ({ f with address := some r }) }) }
        | none => st'
      | none => st'
    else st'

/-- `PER` branch: submitter contact only. -/
def stepPER (st : St) (es : List String) : St :=
  if st.current_entity = some "submitter" then
    { st with submitter :=
        { st.submitter with contact := some ({ name := elemAt es 2, phone := elemAt es 4, extension := elemAt es 6 } : Contact) } }
  else st

/-- `SBR` branch: relationship defaults to `"self"` when element 2 is
absent (the other two fields default to `""`). -/
def stepSBR (st : St) (es : List String) : St :=
  { st with subscriber :=
      { st.subscriber with
        relationship := some (if es.length > 2 then elemAt es 2 else "self")
        groupNumber := some (elemAt es 3)
        planType := some (elemAt es 5) } }

/-- `DMG` branch: subscriber demographics only. -/
def stepDMG (st : St) (es : List String) : St :=
  if st.current_entity = some "subscriber" then
    { st with subscriber :=
        { st.subscriber with
          dob := some (parse_date (elemAt es 2))
          sex := some (elemAt es 3) } }
  else st

/-- The claim dictionary created by the `CLM` branch. -/
def newClaim (es : List String) : Claim :=
  { id := elemAt es 1
    totalCharge := safe_float (elemAt es 2) pyZero
    placeOfService := ""
    serviceType := ""
    indicators :=
      { assigned := elemAt es 7
        providerSignature := elemAt es 6
        releaseInfo := elemAt es 9
        patientSignature := elemAt es 8
        relatedCause := "" }
    onsetDate := ""
    clearinghouseClaimNumber := ""
    diagnosis := { primary := "", secondary := [] }
    serviceLines := []
    payer := none
    renderingProvider := none
    serviceFacility := none }

/-- `CLM` branch: seal the open claim (if any) and open a new one. -/
def stepCLM (st : St) (es : List String) : St :=
  { st with
    claims_data := st.claims_data ++ st.current_claim.toList
    current_claim := some (newClaim es) }

/-- One iteration of the `HI` loop body at index `i`. -/
def hiStep (es : List String) (c : Claim) (i : Nat) : Claim :=
  if elemAt es i ≠ "" then
    let code := clean_code (elemAt es i)
    if i = 1 then { c with diagnosis := { c.diagnosis with primary := code } }
    else { c with diagnosis :=
            { c.diagnosis with secondary := c.diagnosis.secondary ++ [code] } }
  else c

/-- `HI` branch (guarded by an open claim): `for i in range(1, len(elements))`. -/
def stepHI (st : St) (es : List String) : St :=
  { st with current_claim :=
      st.current_claim.map (fun c => (List.range' 1 (es.length - 1)).foldl (hiStep es) c) }

/-- Claim-level `DTP` branch: qualifiers 431/454 set the onset date;
every other qualifier — including 472 — does nothing here. -/
def stepDTPclaim (st : St) (es : List String) : St :=
  let date_qualifier := elemAt es 1
  let date_value := parse_date (elemAt es 3)
  if date_qualifier = "431" ∨ date_qualifier = "454" then
    { st with current_claim := st.current_claim.map (fun c => { c with onsetDate := date_value }) }
  else st

/-- `REF` branch (guarded by an open claim): `D9` only. -/
def stepREF (st : St) (es : List String) : St :=
  if elemAt es 1 = "D9" then
    { st with current_claim :=
        st.current_claim.map (fun c => { c with clearinghouseClaimNumber := elemAt es 2 }) }
  else st

/-- The service-line dictionary created by the `LX` branch. -/
def newServiceLine (es : List String) : ServiceLine :=
  { lineNumber := safe_int (elemAt es 1) 0
    codeQualifier := ""
    procedureCode := ""
    charge := pyZero
    unitQualifier := ""
    units := pyZero
    diagnosisPointer := ""
    emergencyIndicator := ""
    serviceDate := ""
    placeOfService := none }

/-- `LX` branch (guarded by an open claim): append a fresh line. -/
def stepLX (st : St) (es : List String) : St :=
  { st with current_claim :=
      st.current_claim.map (fun c =>
        { c with serviceLines := c.serviceLines ++ [newServiceLine es] }) }

/-- Replace the last element of a list in place (`list[-1]` mutation). -/
def updateLast (f : α → α) : List α → List α
  | [] => []
  | [a] => [f a]
  | a :: b :: rest => a :: updateLast f (b :: rest)

/-- The `SV1` updates applied to the most recent service line. -/
def sv1Line (es : List String) (l : ServiceLine) : ServiceLine :=
  let procedure_info := elemAt es 1
  let l :=
    if pyContains procedure_info ':' then
      let parts := pySplitStr ':' procedure_info
      { l with
        codeQualifier := parts.headD ""
        procedureCode := if parts.length > 1 then parts.getD 1 "" else procedure_info }
    else { l with procedureCode := procedure_info }
  let l := { l with
             charge := safe_float (elemAt es 2) pyZero
             unitQualifier := elemAt es 3
             units := safe_float (elemAt es 4) pyZero }
  let l := if elemAt es 5 ≠ "" then { l with placeOfService := some (elemAt es 5) } else l
  if elemAt es 7 ≠ "" then { l with diagnosisPointer := elemAt es 7 } else l

/-- `SV1` branch (guarded by an open claim with a non-empty line list):
update the last line; a present place-of-service element also fills the
claim's own `placeOfService` if still empty. -/
def stepSV1 (st : St) (es : List String) : St :=
  { st with current_claim :=
      st.current_claim.map (fun c =>
        let c := { c with serviceLines := updateLast (sv1Line es) c.serviceLines }
        if elemAt es 5 ≠ "" ∧ c.placeOfService = "" then
          { c with placeOfService := elemAt es 5 }
        else c) }

/-- Line-level `DTP` branch as written at the bottom of the chain:
qualifier 472 would set the last line's service date.  (Because the
claim-level `DTP` branch above it already matches every `DTP` segment
while a claim is open, this branch is unreachable.) -/
def stepDTPline (st : St) (es : List String) : St :=
  let date_qualifier := elemAt es 1
  let date_value := parse_date (elemAt es 3)
  if date_qualifier = "472" then
    { st with current_claim :=
        st.current_claim.map (fun c =>
          { c with serviceLines :=
              updateLast (fun l => { l with serviceDate := date_value }) c.serviceLines }) }
  else st

/-- The service-line list of the open claim (`current_claim['serviceLines']`),
used only in the truthiness guards. -/
def currentLines (st : St) : List ServiceLine :=
  match st.current_claim with
  | some c => c.serviceLines
  | none => []

/-- One iteration of the interpretation loop: the `if`/`elif` chain of
`parse_x12_for_viewer`, in source order, including the compound
truthiness guards. -/
def step (st : St) (es : List String) : St :=
  let seg_id := es.headD ""
  if seg_id = "ISA" then stepISA st es
  else if seg_id = "GS" then st
  else if seg_id = "ST" then stepST st es
  else if seg_id = "BHT" then stepBHT st es
  else if seg_id = "NM1" then stepNM1 st es
  else if seg_id = "N3" then stepN3 st es
  else if seg_id = "N4" then stepN4 st es
  else if seg_id = "PER" then stepPER st es
  else if seg_id = "SBR" then stepSBR st es
  else if seg_id = "DMG" then stepDMG st es
  else if seg_id = "CLM" then stepCLM st es
  else if seg_id = "HI" ∧ st.current_claim.isSome then stepHI st es
  else if seg_id = "DTP" ∧ st.current_claim.isSome then stepDTPclaim st es
  else if seg_id = "REF" ∧ st.current_claim.isSome then stepREF st es
  else if seg_id = "LX" ∧ st.current_claim.isSome then stepLX st es
  else if seg_id = "SV1" ∧ st.current_claim.isSome ∧ currentLines st ≠ [] then stepSV1 st es
  else if seg_id = "DTP" ∧ st.current_claim.isSome ∧ currentLines st ≠ [] then stepDTPline st es
  else st

/-- Run the loop over the whole segment stream. -/
def runSegs (segs : List (List String)) : St := segs.foldl step initSt

/-- After the loop: `if current_claim: claims_data.append(current_claim)`. -/
def sealLast (st : St) : St :=
  { st with
    claims_data := st.claims_data ++ st.current_claim.toList
    current_claim := none }

/-- After the loop: `if not pay_to_provider.get('name'): pay_to_provider =
billing_provider.copy()`.  The copy is shallow: the structure value is
copied, so the `address` heap reference is shared. -/
def resolvePayTo (st : St) : St :=
  if st.pay_to_provider.name.getD "" = "" then
    { st with pay_to_provider := st.billing_provider }
  else st

/-- The state from which the record builder reads. -/
def finalState (segs : List (List String)) : St := resolvePayTo (sealLast (runSegs segs))

/-- Payload of one output section. -/
inductive SData where
  | trans (t : Transaction)
  | subm (s : Submitter)
  | recv (r : Receiver)
  | party (p : Provider)
  | subsc (s : Subscriber)
  | payerD (p : PayerRec)
  | claimD (id : String) (totalCharge : PyFloat) (placeOfService serviceType : String)
      (indicators : Indicators) (onsetDate clearinghouseClaimNumber : String)
  | diag (d : Diagnosis)
  | rendering (r : RenderingRec)
  | lines (ls : List ServiceLine)
deriving Repr, DecidableEq

/-- The section array built for one sealed claim (source lines 358-379). -/
def buildSections (st : St) (c : Claim) : List (String × SData) :=
  [ ("transaction", SData.trans st.transaction),
    ("submitter", SData.subm st.submitter),
    ("receiver", SData.recv st.receiver),
    ("billing_Provider", SData.party st.billing_provider),
    ("Pay_To_provider", SData.party st.pay_to_provider),
    ("subscriber", SData.subsc st.subscriber),
    ("payer", SData.payerD (c.payer.getD st.payer)),
    ("claim", SData.claimD c.id c.totalCharge c.placeOfService c.serviceType
        c.indicators c.onsetDate c.clearinghouseClaimNumber),
    ("diagnosis", SData.diag c.diagnosis),
    ("renderingProvider", SData.rendering (c.renderingProvider.getD emptyRendering)),
    ("serviceFacility", SData.party (c.serviceFacility.getD st.billing_provider)),
    ("service_Lines", SData.lines c.serviceLines) ]

/-- The overall return value: a single flat section array when exactly
one claim was sealed, otherwise an array of section arrays. -/
inductive Output where
  | single (r : List (String × SData))
  | multi (rs : List (List (String × SData)))
deriving Repr, DecidableEq

/-- The whole parse: run the loop, seal, default the pay-to provider,
build one section array per sealed claim, unwrap a singleton. -/
def parse_x12_for_viewer (segs : List (List String)) : Output :=
  let st := finalState segs
  let results := st.claims_data.map (buildSections st)
  match results with
  | [r] => Output.single r
  | rs => Output.multi rs

/-- The claim identifiers currently in flight: the sealed claims' ids
followed by the open claim's id (used to track claim count and order). -/
def claimIds (st : St) : List String :=
  st.claims_data.map Claim.id ++ (st.current_claim.map Claim.id).toList

/-- States in which the pay-to-provider dictionary is still untouched
and no dependent segment can be routed to it. -/
def noPayTo (st : St) : Prop :=
  st.pay_to_provider = emptyProvider ∧ st.current_entity ≠ some "pay_to_provider"

/-- Look up a section's payload by its label. -/
def sectionData (r : List (String × SData)) (k : String) : Option SData :=
  (r.find? (fun p => p.1 == k)).map Prod.snd

/-- The labels of a section array, in order. -/
def sectionShape (r : List (String × SData)) : List String := r.map Prod.fst

/-- The label sequence every built section array carries. -/
def canonicalShape : List String :=
  ["transaction", "submitter", "receiver", "billing_Provider", "Pay_To_provider",
   "subscriber", "payer", "claim", "diagnosis", "renderingProvider", "serviceFacility",
   "service_Lines"]

/-- The view of a provider's address through the heap: the dict object
its `address` key references, if any. -/
def resolveAddr (st : St) (p : Provider) : Option Addr :=
  p.address.map (heapGet st.heap)

/-- In-place mutation of the street of the address object at heap
reference `r` (Python `d['address']['street'] = v`). -/
def mutateStreet (st : St) (r : Nat) (v : String) : St :=
  { st with heap := heapSet st.heap r { heapGet st.heap r with street := some v } }

/-- C1's failing input: a claim with one line followed by a line-level
service-date segment. -/
def c1Input : List (List String) :=
  [["CLM", "123", "50"], ["LX", "1"], ["DTP", "472", "D8", "20230101"]]

/-- C2's input: a billing-provider introduction, an entity introduction
with unrecognized code `ZZ`, then the dependent address segments. -/
def c2Input : List (List String) :=
  [["NM1", "85", "2", "ACME", "", "", "", "", "46", "12345"],
   ["NM1", "ZZ", "1", "BOGUS"],
   ["N3", "9 Oak Ave"],
   ["N4", "Metropolis", "NY", "10001"]]

/-- C3's input: a stream with a billing provider (and its address) and
one claim, but no pay-to-provider introduction. -/
def c3Input : List (List String) :=
  [["NM1", "85", "2", "ACME BILLING", "", "", "", "", "46", "12345"],
   ["N3", "100 Main St"],
   ["N4", "Springfield", "IL", "62701"],
   ["CLM", "A1", "100"]]

/-- C5's counterexample input: a diagnosis segment whose first element
position is empty, so the first diagnosis value sits at position 2. -/
def c5Input : List (List String) :=
  [["CLM", "A", "10"], ["HI", "", "ABK:K0230"]]

/-- A single-claim stream (used to exercise the single-record output). -/
def oneClaimInput : List (List String) :=
  [["CLM", "C1", "10"], ["LX", "1"], ["LX", "2"]]

/-- A two-claim stream (used to exercise the multi-record output). -/
def twoClaimInput : List (List String) :=
  [["CLM", "C1", "10"], ["CLM", "C2", "20"]]

/-- Claim C4 counterexample: `parse_date` does not return an 8-character
non-digit input unchanged — it hyphenates it like a date. -/
theorem c4_counterexample :
    parse_date "ABCDEFGH" ≠ "ABCDEFGH" ∧ parse_date "ABCDEFGH" = "ABCD-EF-GH" := by
  decide

/-- Claim C4 amended: `parse_date` hyphenates every input of exactly 8
characters (digits or not) into the `XXXX-XX-XX` shape, and returns any
input of a different length unchanged; being a total function, it never
raises. -/
theorem c4_amended :
    (∀ c1 c2 c3 c4 c5 c6 c7 c8 : Char,
        parse_date (String.mk [c1, c2, c3, c4, c5, c6, c7, c8]) =
          String.mk [c1, c2, c3, c4, '-', c5, c6, '-', c7, c8]) ∧
    (∀ s : String, s.length ≠ 8 → parse_date s = s) := by
  constructor
  · intro c1 c2 c3 c4 c5 c6 c7 c8
    rfl
  · intro s h
    unfold parse_date
    rw [if_pos (Or.inr h)]

/-- Claim C4 witness: the amended statement applied to the 8-digit date
`20230102` and the short string `abc`. -/
theorem c4_witness :
    parse_date (String.mk ['2', '0', '2', '3', '0', '1', '0', '2']) =
      String.mk ['2', '0', '2', '3', '-', '0', '1', '-', '0', '2'] ∧
    parse_date "abc" = "abc" :=
  ⟨c4_amended.1 '2' '0' '2' '3' '0' '1' '0' '2', c4_amended.2 "abc" (by decide)⟩

/-- Claim C2 counterexample: after `NM1*85` (billing provider) and then an
`NM1` with the unrecognized code `ZZ`, the current role is still the
billing provider, and the following `N3`/`N4` segments attach their
address to the billing-provider record — they are not dropped. -/
theorem c2_counterexample :
    (runSegs c2Input).current_entity = some "billing_provider" ∧
    resolveAddr (runSegs c2Input) (runSegs c2Input).billing_provider =
      some ⟨some "9 Oak Ave", some "Metropolis", some "NY", some "10001"⟩ := by
  decide

/-- Claim C2 amended: an entity-introduction segment whose entity code is not
in the fixed table leaves the parser state — in particular the current
role — entirely unchanged, so dependent segments that follow attach to
the party of the most recent recognized introduction (and only when no
recognized introduction has ever occurred do they reach no party). -/
theorem c2_amended (st : St) (es : List String)
    (h1 : es.headD "" = "NM1")
    (h2 : elemAt es 1 ∉ (["41", "40", "85", "87", "IL", "PR", "82", "77"] : List String)) :
    step st es = st := by
  simp only [List.mem_cons, List.not_mem_nil, or_false] at h2
  push_neg at h2
  obtain ⟨n41, n40, n85, n87, nIL, nPR, n82, n77⟩ := h2
  simp only [List.headD_eq_head?_getD] at h1
  simp [step, stepNM1, h1, n41, n40, n85, n87, nIL, nPR, n82, n77]

/-- Claim C2 witness: the amended statement applied to an `NM1` with code `ZZ`
in the initial state. -/
theorem c2_witness : step initSt ["NM1", "ZZ", "1", "BOGUS"] = initSt :=
  c2_amended initSt ["NM1", "ZZ", "1", "BOGUS"] rfl (by decide)

/-- Claim C1: at the failing input `CLM*123*50`, `LX*1`, `DTP*472*D8*20230101`
the sealed claim's only service line has an empty serviceDate — the
line-level `DTP` branch is shadowed by the claim-level `DTP` branch of
the `elif` chain, so the qualifier-472 date (which `parse_date` would
render as `2023-01-01`) is dropped. -/
theorem c1_service_date_dropped :
    (finalState c1Input).claims_data.map
        (fun c => c.serviceLines.map (fun l => l.serviceDate)) = [[""]] ∧
    parse_date "20230101" = "2023-01-01" := by
  decide

/-- Claim C3 counterexample: with no pay-to introduction, the pay-to record is
`billing_provider.copy()` — a shallow copy, so both records reference
the same address object (heap cell 1), and an in-place mutation of the
street through that shared object changes what the pay-to record shows:
the two records are not decoupled at the nested-address level. -/
theorem c3_counterexample :
    (finalState c3Input).pay_to_provider.address =
      (finalState c3Input).billing_provider.address ∧
    (finalState c3Input).billing_provider.address = some 1 ∧
    resolveAddr (mutateStreet (finalState c3Input) 1 "CHANGED")
        (finalState c3Input).pay_to_provider ≠
      resolveAddr (finalState c3Input) (finalState c3Input).pay_to_provider := by
  decide

/-- Claim C5 counterexample: an `HI` segment whose element 1 is empty — the
first diagnosis value, `ABK:K0230` at element 2, is routed to the
secondary list and the primary stays empty, contrary to "the first
occurrence of a diagnosis value becomes the claim's primary code". -/
theorem c5_counterexample :
    (finalState c5Input).claims_data.map
        (fun c => (c.diagnosis.primary, c.diagnosis.secondary)) = [("", ["K0230"])] ∧
    clean_code "ABK:K0230" = "K0230" ∧
    (finalState c5Input).claims_data.map (fun c => c.diagnosis.primary) ≠ ["K0230"] := by
  decide

/-- Claim C8 counterexample: a truncated `SBR` segment resolves the absent
relationship element to `"self"`, not to the empty-string/zero default
the claim asserts for every absent field. -/
theorem c8_counterexample :
    (runSegs [["SBR"]]).subscriber.relationship = some "self" ∧
    (runSegs [["SBR"]]).subscriber.relationship ≠ some "" := by
  decide

/-- Helper: `safe_int` returns its default whenever the cleaned value is
empty or unparseable. -/
theorem safe_int_default (v : String) (d : Int)
    (h : cleanValue v = "" ∨ pyInt? (cleanValue v) = none) : safe_int v d = d := by
  simp only [safe_int]
  split_ifs with hv hc
  · rfl
  · rfl
  · rcases h with h | h
    · exact absurd h hc
    · rw [h]; rfl

/-- Helper: `safe_float` returns its default whenever the cleaned value
is empty or unparseable. -/
theorem safe_float_default (v : String) (d : PyFloat)
    (h : cleanValue v = "" ∨ pyFloat? (cleanValue v) = none) : safe_float v d = d := by
  simp only [safe_float]
  split_ifs with hv hc
  · rfl
  · rfl
  · rcases h with h | h
    · exact absurd h hc
    · rw [h]; rfl

/-- Helper: a segment whose tag is `CLM` is processed by the `CLM`
branch. -/
theorem step_eq_stepCLM (st : St) (es : List String) (h : es.headD "" = "CLM") :
    step st es = stepCLM st es := by
  simp only [List.headD_eq_head?_getD] at h
  simp [step, h]

/-- Claim C9: `safe_int` and `safe_float` are total functions returning the
supplied default on empty or unparseable (cleaned) input; a `CLM`
segment with an unparseable monetary element therefore opens a claim
whose totalCharge is `0.0`, and the loop simply continues with the
remaining segments. -/
theorem c9_safe_coercion :
    (∀ v d, (cleanValue v = "" ∨ pyInt? (cleanValue v) = none) → safe_int v d = d) ∧
    (∀ v d, (cleanValue v = "" ∨ pyFloat? (cleanValue v) = none) → safe_float v d = d) ∧
    (∀ (st : St) (es : List String), es.headD "" = "CLM" →
        pyFloat? (cleanValue (elemAt es 2)) = none →
        (step st es).current_claim = some (newClaim es) ∧
        (newClaim es).totalCharge = pyZero) ∧
    (∀ (st : St) (e : List String) (rest : List (List String)),
        (e :: rest).foldl step st = rest.foldl step (step st e)) := by
  refine ⟨safe_int_default, safe_float_default, ?_, fun _ _ _ => rfl⟩
  intro st es h1 h2
  rw [step_eq_stepCLM st es h1]
  exact ⟨rfl, safe_float_default _ _ (Or.inr h2)⟩

/-- Claim C9 witness: the coercion defaults at `12x`/`ABC`, and a `CLM` whose
charge element `12A.4` is unparseable yielding totalCharge `0.0`. -/
theorem c9_witness :
    safe_int "12x" 7 = 7 ∧ safe_float "ABC" ⟨5, 0⟩ = ⟨5, 0⟩ ∧
    (step initSt ["CLM", "X", "12A.4"]).current_claim =
      some (newClaim ["CLM", "X", "12A.4"]) ∧
    (newClaim ["CLM", "X", "12A.4"]).totalCharge = pyZero := by
  refine ⟨c9_safe_coercion.1 "12x" 7 (by decide),
          c9_safe_coercion.2.1 "ABC" ⟨5, 0⟩ (by decide), ?_, ?_⟩
  · exact (c9_safe_coercion.2.2.1 initSt ["CLM", "X", "12A.4"] rfl (by decide)).1
  · exact (c9_safe_coercion.2.2.1 initSt ["CLM", "X", "12A.4"] rfl (by decide)).2

/-- Claim C10: in the record builder, a claim with no claim-scoped service
facility gets the transaction-level billing-provider record as its
`serviceFacility` section, while a claim with no claim-scoped rendering
provider gets the empty record as its `renderingProvider` section. -/
theorem c10_builder_defaults (segs : List (List String)) (c : Claim)
    (hf : c.serviceFacility = none) (hr : c.renderingProvider = none) :
    sectionData (buildSections (finalState segs) c) "serviceFacility" =
      some (SData.party (finalState segs).billing_provider) ∧
    sectionData (buildSections (finalState segs) c) "renderingProvider" =
      some (SData.rendering emptyRendering) := by
  constructor <;> simp [sectionData, buildSections, hf, hr]

/-- Claim C10 witness: the builder defaults applied to a facility-less,
rendering-provider-less claim against the single-claim stream's state. -/
theorem c10_witness :
    sectionData (buildSections (finalState oneClaimInput) (newClaim ["CLM", "C9", "5"]))
        "serviceFacility" =
      some (SData.party (finalState oneClaimInput).billing_provider) ∧
    sectionData (buildSections (finalState oneClaimInput) (newClaim ["CLM", "C9", "5"]))
        "renderingProvider" =
      some (SData.rendering emptyRendering) :=
  c10_builder_defaults oneClaimInput (newClaim ["CLM", "C9", "5"]) rfl rfl

/-- Claim C7: when exactly one claim was sealed the parser returns a single
flat section array; when more than one was sealed it returns one section
array per claim, in order, all carrying the same section labels. -/
theorem c7_output_cardinality (segs : List (List String)) :
    ((finalState segs).claims_data.length = 1 →
      ∃ r, parse_x12_for_viewer segs = Output.single r ∧ sectionShape r = canonicalShape) ∧
    (1 < (finalState segs).claims_data.length →
      ∃ rs, parse_x12_for_viewer segs = Output.multi rs ∧
        rs.length = (finalState segs).claims_data.length ∧
        ∀ r ∈ rs, sectionShape r = canonicalShape) := by
  constructor
  · intro h
    rcases hcd : (finalState segs).claims_data with _ | ⟨c1, tl⟩
    · rw [hcd] at h; simp at h
    · rcases tl with _ | ⟨c2, tl2⟩
      · refine ⟨buildSections (finalState segs) c1, ?_, rfl⟩
        simp only [parse_x12_for_viewer, hcd, List.map_cons, List.map_nil]
      · rw [hcd] at h; simp at h
  · intro h
    rcases hcd : (finalState segs).claims_data with _ | ⟨c1, tl⟩
    · rw [hcd] at h; simp at h
    · rcases tl with _ | ⟨c2, tl2⟩
      · rw [hcd] at h; simp at h
      · refine ⟨buildSections (finalState segs) c1 :: buildSections (finalState segs) c2 ::
          tl2.map (buildSections (finalState segs)), ?_, ?_, ?_⟩
        · simp only [parse_x12_for_viewer, hcd, List.map_cons]
        · simp [hcd]
        · intro r hr
          simp only [List.mem_cons, List.mem_map] at hr
          rcases hr with rfl | rfl | ⟨c, _, rfl⟩ <;> rfl

/-- Claim C7 witness: the cardinality statement applied to a one-claim stream
and to a two-claim stream. -/
theorem c7_witness :
    (∃ r, parse_x12_for_viewer oneClaimInput = Output.single r ∧
      sectionShape r = canonicalShape) ∧
    (∃ rs, parse_x12_for_viewer twoClaimInput = Output.multi rs ∧
      rs.length = (finalState twoClaimInput).claims_data.length ∧
      ∀ r ∈ rs, sectionShape r = canonicalShape) :=
  ⟨(c7_output_cardinality oneClaimInput).1 (by decide),
   (c7_output_cardinality twoClaimInput).2 (by decide)⟩

/-- Helper: one `HI` loop iteration never changes the claim id. -/
theorem hiStep_id (es : List String) (c : Claim) (i : Nat) : (hiStep es c i).id = c.id := by
  unfold hiStep
  split_ifs <;> rfl

/-- Helper: the whole `HI` loop never changes the claim id. -/
theorem hiFoldl_id (es : List String) (l : List Nat) :
    ∀ c : Claim, (l.foldl (hiStep es) c).id = c.id := by
  induction l with
  | nil => intro c; rfl
  | cons i is ih =>
    intro c
    rw [List.foldl_cons, ih, hiStep_id]

/-- Dispatch: an `ISA` segment is handled by the `ISA` branch. -/
theorem step_tag_isa (st : St) (es : List String) (h : es.headD "" = "ISA") :
    step st es = stepISA st es := by
  simp only [List.headD_eq_head?_getD] at h
  simp [step, h]

/-- Dispatch: a `GS` segment is a no-op. -/
theorem step_tag_gs (st : St) (es : List String) (h : es.headD "" = "GS") :
    step st es = st := by
  simp only [List.headD_eq_head?_getD] at h
  simp [step, h]

/-- Dispatch: an `ST` segment is handled by the `ST` branch. -/
theorem step_tag_st (st : St) (es : List String) (h : es.headD "" = "ST") :
    step st es = stepST st es := by
  simp only [List.headD_eq_head?_getD] at h
  simp [step, h]

/-- Dispatch: a `BHT` segment is handled by the `BHT` branch. -/
theorem step_tag_bht (st : St) (es : List String) (h : es.headD "" = "BHT") :
    step st es = stepBHT st es := by
  simp only [List.headD_eq_head?_getD] at h
  simp [step, h]

/-- Dispatch: an `NM1` segment is handled by the `NM1` branch. -/
theorem step_tag_nm1 (st : St) (es : List String) (h : es.headD "" = "NM1") :
    step st es = stepNM1 st es := by
  simp only [List.headD_eq_head?_getD] at h
  simp [step, h]

/-- Dispatch: an `N3` segment is handled by the `N3` branch. -/
theorem step_tag_n3 (st : St) (es : List String) (h : es.headD "" = "N3") :
    step st es = stepN3 st es := by
  simp only [List.headD_eq_head?_getD] at h
  simp [step, h]

/-- Dispatch: an `N4` segment is handled by the `N4` branch. -/
theorem step_tag_n4 (st : St) (es : List String) (h : es.headD "" = "N4") :
    step st es = stepN4 st es := by
  simp only [List.headD_eq_head?_getD] at h
  simp [step, h]

/-- Dispatch: a `PER` segment is handled by the `PER` branch. -/
theorem step_tag_per (st : St) (es : List String) (h : es.headD "" = "PER") :
    step st es = stepPER st es := by
  simp only [List.headD_eq_head?_getD] at h
  simp [step, h]

/-- Dispatch: an `SBR` segment is handled by the `SBR` branch. -/
theorem step_tag_sbr (st : St) (es : List String) (h : es.headD "" = "SBR") :
    step st es = stepSBR st es := by
  simp only [List.headD_eq_head?_getD] at h
  simp [step, h]

/-- Dispatch: a `DMG` segment is handled by the `DMG` branch. -/
theorem step_tag_dmg (st : St) (es : List String) (h : es.headD "" = "DMG") :
    step st es = stepDMG st es := by
  simp only [List.headD_eq_head?_getD] at h
  simp [step, h]

/-- Dispatch: an `HI` segment runs the `HI` branch only under an open
claim, and is dropped otherwise. -/
theorem step_tag_hi (st : St) (es : List String) (h : es.headD "" = "HI") :
    step st es = if st.current_claim.isSome = true then stepHI st es else st := by
  simp only [List.headD_eq_head?_getD] at h
  by_cases hs : st.current_claim.isSome = true <;> simp [step, h, hs]

/-- Dispatch: a `DTP` segment runs the claim-level branch when a claim
is open and otherwise does nothing — the line-level `DTP` branch below
it in the chain is unreachable, because its guard requires an open
claim, which the claim-level branch has already captured. -/
theorem step_tag_dtp (st : St) (es : List String) (h : es.headD "" = "DTP") :
    step st es = if st.current_claim.isSome = true then stepDTPclaim st es else st := by
  simp only [List.headD_eq_head?_getD] at h
  by_cases hs : st.current_claim.isSome = true <;> simp [step, h, hs]

/-- Dispatch: a `REF` segment runs its branch only under an open claim. -/
theorem step_tag_ref (st : St) (es : List String) (h : es.headD "" = "REF") :
    step st es = if st.current_claim.isSome = true then stepREF st es else st := by
  simp only [List.headD_eq_head?_getD] at h
  by_cases hs : st.current_claim.isSome = true <;> simp [step, h, hs]

/-- Dispatch: an `LX` segment runs its branch only under an open claim. -/
theorem step_tag_lx (st : St) (es : List String) (h : es.headD "" = "LX") :
    step st es = if st.current_claim.isSome = true then stepLX st es else st := by
  simp only [List.headD_eq_head?_getD] at h
  by_cases hs : st.current_claim.isSome = true <;> simp [step, h, hs]

/-- Dispatch: an `SV1` segment runs its branch only under an open claim
with a non-empty line list. -/
theorem step_tag_sv1 (st : St) (es : List String) (h : es.headD "" = "SV1") :
    step st es =
      if st.current_claim.isSome = true ∧ currentLines st ≠ [] then stepSV1 st es
      else st := by
  simp only [List.headD_eq_head?_getD] at h
  by_cases hs : st.current_claim.isSome = true
  · by_cases hl : currentLines st ≠ [] <;> simp [step, h, hs, hl]
  · simp [step, h, hs]

/-- Dispatch: a segment with any other tag is a no-op. -/
theorem step_tag_other (st : St) (es : List String)
    (h : es.headD "" ∉ (["ISA", "GS", "ST", "BHT", "NM1", "N3", "N4", "PER", "SBR",
        "DMG", "CLM", "HI", "DTP", "REF", "LX", "SV1"] : List String)) :
    step st es = st := by
  simp only [List.mem_cons, List.not_mem_nil, or_false] at h
  push_neg at h
  obtain ⟨e1, e2, e3, e4, e5, e6, e7, e8, e9, e10, e11, e12, e13, e14, e15, e16⟩ := h
  simp only [List.headD_eq_head?_getD] at e1 e2 e3 e4 e5 e6 e7 e8 e9 e10 e11 e12 e13 e14 e15 e16
  simp [step, e1, e2, e3, e4, e5, e6, e7, e8, e9, e10, e11, e12, e13, e14, e15, e16]

/-- Helper: a non-`CLM` segment changes neither the sealed claims' ids
nor the open claim's id. -/
theorem claimIds_step_ne (st : St) (es : List String) (h : es.headD "" ≠ "CLM") :
    claimIds (step st es) = claimIds st := by
  by_cases h1 : es.headD "" = "ISA"
  · rw [step_tag_isa st es h1]; rfl
  by_cases h2 : es.headD "" = "GS"
  · rw [step_tag_gs st es h2]
  by_cases h3 : es.headD "" = "ST"
  · rw [step_tag_st st es h3]; rfl
  by_cases h4 : es.headD "" = "BHT"
  · rw [step_tag_bht st es h4]; rfl
  by_cases h5 : es.headD "" = "NM1"
  · rw [step_tag_nm1 st es h5]
    simp only [stepNM1]
    split_ifs <;>
      first
        | rfl
        | (rcases hcc : st.current_claim with _ | c <;> simp [claimIds, hcc])
  by_cases h6 : es.headD "" = "N3"
  · rw [step_tag_n3 st es h6]; rfl
  by_cases h7 : es.headD "" = "N4"
  · rw [step_tag_n4 st es h7]
    simp only [stepN4]
    rcases hg : assocGet? st.temp_addresses st.current_entity with _ | r
    · rfl
    · split_ifs with e1 e2 e3 e4
      · rfl
      · rfl
      · rfl
      · rcases hcc : st.current_claim with _ | c
        · simp [claimIds, hcc]
        · rcases hsf : c.serviceFacility with _ | f <;> simp [claimIds, hcc, hsf]
      · rfl
  by_cases h8 : es.headD "" = "PER"
  · rw [step_tag_per st es h8]
    simp only [stepPER]
    split_ifs <;> rfl
  by_cases h9 : es.headD "" = "SBR"
  · rw [step_tag_sbr st es h9]; rfl
  by_cases h10 : es.headD "" = "DMG"
  · rw [step_tag_dmg st es h10]
    simp only [stepDMG]
    split_ifs <;> rfl
  by_cases h12 : es.headD "" = "HI"
  · rw [step_tag_hi st es h12]
    split_ifs with hs
    · simp only [stepHI]
      rcases hcc : st.current_claim with _ | c <;> simp [claimIds, hcc, hiFoldl_id]
    · rfl
  by_cases h13 : es.headD "" = "DTP"
  · rw [step_tag_dtp st es h13]
    split_ifs with hs
    · simp only [stepDTPclaim]
      split_ifs
      · rcases hcc : st.current_claim with _ | c <;> simp [claimIds, hcc]
      · rfl
    · rfl
  by_cases h14 : es.headD "" = "REF"
  · rw [step_tag_ref st es h14]
    split_ifs with hs
    · simp only [stepREF]
      split_ifs
      · rcases hcc : st.current_claim with _ | c <;> simp [claimIds, hcc]
      · rfl
    · rfl
  by_cases h15 : es.headD "" = "LX"
  · rw [step_tag_lx st es h15]
    split_ifs with hs
    · simp only [stepLX]
      rcases hcc : st.current_claim with _ | c <;> simp [claimIds, hcc]
    · rfl
  by_cases h16 : es.headD "" = "SV1"
  · rw [step_tag_sv1 st es h16]
    split_ifs with hs
    · simp only [stepSV1]
      rcases hcc : st.current_claim with _ | c
      · simp [claimIds, hcc]
      · simp only [hcc, Option.map_some']
        split_ifs <;> simp [claimIds, hcc]
    · rfl
  rw [step_tag_other st es (by
    simp only [List.mem_cons, List.not_mem_nil, or_false]
    push_neg
    exact ⟨h1, h2, h3, h4, h5, h6, h7, h8, h9, h10, h, h12, h13, h14, h15, h16⟩)]

/-- Helper: a `CLM` segment appends exactly its claim-id element. -/
theorem claimIds_step_clm (st : St) (es : List String) (h : es.headD "" = "CLM") :
    claimIds (step st es) = claimIds st ++ [elemAt es 1] := by
  rw [step_eq_stepCLM st es h]
  rcases hcc : st.current_claim with _ | c <;> simp [claimIds, stepCLM, newClaim, hcc]

/-- Helper: folding the loop over a stream appends one claim id per
`CLM` segment, in stream order. -/
theorem claimIds_foldl (segs : List (List String)) :
    ∀ st : St, claimIds (List.foldl step st segs) =
      claimIds st ++
        (segs.filter (fun es => es.headD "" = "CLM")).map (fun es => elemAt es 1) := by
  induction segs with
  | nil => intro st; simp
  | cons e rest ih =>
    intro st
    rw [List.foldl_cons, ih, List.filter_cons]
    by_cases hc : e.headD "" = "CLM"
    · rw [claimIds_step_clm st e hc, if_pos (decide_eq_true hc)]
      simp [List.append_assoc]
    · rw [claimIds_step_ne st e hc, if_neg (by simpa using hc)]

/-- Helper: sealing the last open claim turns the in-flight id list into
the sealed claims' id list. -/
theorem sealLast_ids (st : St) :
    (sealLast st).claims_data.map Claim.id = claimIds st := by
  rcases hcc : st.current_claim with _ | c <;> simp [sealLast, claimIds, hcc]

/-- Helper: resolving the pay-to default never touches the claim list. -/
theorem resolvePayTo_claims (st : St) :
    (resolvePayTo st).claims_data = st.claims_data := by
  unfold resolvePayTo
  split_ifs <;> rfl

/-- Claim C6: the sealed claims correspond one-to-one, in stream order, to the
`CLM` segments — their ids are exactly the `CLM` segments' element 1, so
in particular the claim count equals the `CLM` count. -/
theorem c6_claim_count_order (segs : List (List String)) :
    (finalState segs).claims_data.map Claim.id =
      (segs.filter (fun es => es.headD "" = "CLM")).map (fun es => elemAt es 1) ∧
    (finalState segs).claims_data.length =
      (segs.filter (fun es => es.headD "" = "CLM")).length := by
  have h1 : (finalState segs).claims_data.map Claim.id =
      (segs.filter (fun es => es.headD "" = "CLM")).map (fun es => elemAt es 1) := by
    show (resolvePayTo (sealLast (runSegs segs))).claims_data.map Claim.id = _
    rw [resolvePayTo_claims, sealLast_ids]
    show claimIds (List.foldl step initSt segs) = _
    rw [claimIds_foldl]
    simp [claimIds, initSt]
  refine ⟨h1, ?_⟩
  have h2 := congrArg List.length h1
  simpa using h2

/-- Helper: any segment other than a pay-to introduction keeps the
pay-to-provider dictionary empty and the current role away from the
pay-to role. -/
theorem noPayTo_step (st : St) (es : List String)
    (h87 : ¬(es.headD "" = "NM1" ∧ elemAt es 1 = "87")) (h : noPayTo st) :
    noPayTo (step st es) := by
  obtain ⟨hp, he⟩ := h
  by_cases h1 : es.headD "" = "ISA"
  · rw [step_tag_isa st es h1]; exact ⟨hp, he⟩
  by_cases h2 : es.headD "" = "GS"
  · rw [step_tag_gs st es h2]; exact ⟨hp, he⟩
  by_cases h3 : es.headD "" = "ST"
  · rw [step_tag_st st es h3]; exact ⟨hp, he⟩
  by_cases h4 : es.headD "" = "BHT"
  · rw [step_tag_bht st es h4]; exact ⟨hp, he⟩
  by_cases h5 : es.headD "" = "NM1"
  · rw [step_tag_nm1 st es h5]
    have h87' : elemAt es 1 ≠ "87" := fun he87 => h87 ⟨h5, he87⟩
    simp only [stepNM1]
    -- split_ifs resolves the pay-to condition itself from h87', leaving
    -- seven conditions
    split_ifs with e41 e40 e85 eIL ePR e82 e77
    · exact ⟨hp, by simp⟩
    · exact ⟨hp, by simp⟩
    · exact ⟨hp, by simp⟩
    · exact ⟨hp, by simp⟩
    · rcases st.current_claim with _ | c <;> exact ⟨hp, by simp⟩
    · rcases st.current_claim with _ | c <;> exact ⟨hp, by simp⟩
    · rcases st.current_claim with _ | c <;> exact ⟨hp, by simp⟩
    · exact ⟨hp, he⟩
  by_cases h6 : es.headD "" = "N3"
  · rw [step_tag_n3 st es h6]; exact ⟨hp, he⟩
  by_cases h7 : es.headD "" = "N4"
  · rw [step_tag_n4 st es h7]
    rcases hg : assocGet? st.temp_addresses st.current_entity with _ | r
    · simp only [stepN4, hg]
      exact ⟨hp, he⟩
    · -- in each shape of the open claim, split_ifs resolves the pay-to
      -- condition itself from he, and every remaining branch leaves the
      -- pay-to record and the current role untouched
      rcases hcc : st.current_claim with _ | c
      · simp only [stepN4, hg, hcc]
        split_ifs <;> exact ⟨hp, he⟩
      · rcases hsf : c.serviceFacility with _ | f <;>
          · simp only [stepN4, hg, hcc, hsf]
            split_ifs <;> exact ⟨hp, he⟩
  by_cases h8 : es.headD "" = "PER"
  · rw [step_tag_per st es h8]
    simp only [stepPER]
    split_ifs <;> exact ⟨hp, he⟩
  by_cases h9 : es.headD "" = "SBR"
  · rw [step_tag_sbr st es h9]; exact ⟨hp, he⟩
  by_cases h10 : es.headD "" = "DMG"
  · rw [step_tag_dmg st es h10]
    simp only [stepDMG]
    split_ifs <;> exact ⟨hp, he⟩
  by_cases h11 : es.headD "" = "CLM"
  · rw [step_eq_stepCLM st es h11]; exact ⟨hp, he⟩
  by_cases h12 : es.headD "" = "HI"
  · rw [step_tag_hi st es h12]
    split_ifs <;> exact ⟨hp, he⟩
  by_cases h13 : es.headD "" = "DTP"
  · rw [step_tag_dtp st es h13]
    split_ifs with hs
    · simp only [stepDTPclaim]
      split_ifs <;> exact ⟨hp, he⟩
    · exact ⟨hp, he⟩
  by_cases h14 : es.headD "" = "REF"
  · rw [step_tag_ref st es h14]
    split_ifs with hs
    · simp only [stepREF]
      split_ifs <;> exact ⟨hp, he⟩
    · exact ⟨hp, he⟩
  by_cases h15 : es.headD "" = "LX"
  · rw [step_tag_lx st es h15]
    split_ifs <;> exact ⟨hp, he⟩
  by_cases h16 : es.headD "" = "SV1"
  · rw [step_tag_sv1 st es h16]
    split_ifs <;> exact ⟨hp, he⟩
  rw [step_tag_other st es (by
    simp only [List.mem_cons, List.not_mem_nil, or_false]
    push_neg
    exact ⟨h1, h2, h3, h4, h5, h6, h7, h8, h9, h10, h11, h12, h13, h14, h15, h16⟩)]
  exact ⟨hp, he⟩

/-- Helper: over a stream with no pay-to introduction, the pay-to
invariant is preserved end to end. -/
theorem noPayTo_foldl (segs : List (List String)) :
    ∀ st : St, (∀ es ∈ segs, ¬(es.headD "" = "NM1" ∧ elemAt es 1 = "87")) →
      noPayTo st → noPayTo (List.foldl step st segs) := by
  induction segs with
  | nil => intro st _ h; exact h
  | cons e rest ih =>
    intro st hall h
    rw [List.foldl_cons]
    exact ih _ (fun es hm => hall es (List.mem_cons_of_mem _ hm))
      (noPayTo_step st e (hall e (List.mem_cons_self _ _)) h)

/-- Claim C3 amended: for every stream with no pay-to-provider introduction,
the final pay-to-provider record is exactly the billing-provider record
— equal in every field, including the shared `address` heap reference.
This is the shallow `dict.copy()`: top-level fields are independent
copies, but the nested address object is the same object for both. -/
theorem c3_pay_to_is_billing_shallow_copy (segs : List (List String))
    (h : ∀ es ∈ segs, ¬(es.headD "" = "NM1" ∧ elemAt es 1 = "87")) :
    (finalState segs).pay_to_provider = (finalState segs).billing_provider := by
  have hn : noPayTo (runSegs segs) := noPayTo_foldl segs initSt h ⟨rfl, by decide⟩
  have hcond : (sealLast (runSegs segs)).pay_to_provider.name.getD "" = "" := by
    have hseal : (sealLast (runSegs segs)).pay_to_provider = emptyProvider := hn.1
    rw [hseal]
    rfl
  show (resolvePayTo (sealLast (runSegs segs))).pay_to_provider =
    (resolvePayTo (sealLast (runSegs segs))).billing_provider
  unfold resolvePayTo
  rw [if_pos hcond]

/-- Claim C3 witness: the amended statement applied to the concrete stream
`c3Input`, which has a billing provider with an address but no pay-to
introduction. -/
theorem c3_witness :
    (finalState c3Input).pay_to_provider = (finalState c3Input).billing_provider :=
  c3_pay_to_is_billing_shallow_copy c3Input (by decide)

/-- Helper: from index 2 on, the `HI` loop appends every non-empty
element (qualifier-stripped) to the secondary list, in index order, and
changes nothing else. -/
theorem hiFoldl_ge_two (es : List String) :
    ∀ (n k : Nat), 2 ≤ k → ∀ c : Claim,
      (List.range' k n).foldl (hiStep es) c =
        { c with diagnosis :=
            { c.diagnosis with secondary := c.diagnosis.secondary ++
                (((es.drop k).take n).filter (fun x => x ≠ "")).map clean_code } } := by
  intro n
  induction n with
  | zero =>
    intro k hk c
    rw [show List.range' k 0 = [] from rfl, List.foldl_nil]
    simp
  | succ n ih =>
    intro k hk c
    rw [show List.range' k (n + 1) = k :: List.range' (k + 1) n from rfl, List.foldl_cons]
    by_cases hlen : k < es.length
    · have hdrop : es.drop k = es[k] :: es.drop (k + 1) := List.drop_eq_getElem_cons hlen
      have hget : elemAt es k = es[k] := List.getD_eq_getElem es "" hlen
      by_cases hne : elemAt es k = ""
      · have hstep : hiStep es c k = c := by simp [hiStep, hne]
        rw [hstep, ih (k + 1) (by omega), hdrop, List.take_succ_cons, ← hget]
        simp [List.filter_cons, hne]
      · have hk1 : k ≠ 1 := by omega
        have hstep : hiStep es c k =
            { c with diagnosis := { c.diagnosis with
                secondary := c.diagnosis.secondary ++ [clean_code (elemAt es k)] } } := by
          simp [hiStep, hne, hk1]
        rw [hstep, ih (k + 1) (by omega), hdrop, List.take_succ_cons, ← hget]
        simp [List.filter_cons, hne]
    · have hge : es.length ≤ k := by omega
      have hne : elemAt es k = "" := List.getD_eq_default es "" hge
      have hstep : hiStep es c k = c := by simp [hiStep, hne]
      have hd1 : es.drop k = ([] : List String) := List.drop_eq_nil_of_le hge
      have hd2 : es.drop (k + 1) = ([] : List String) := List.drop_eq_nil_of_le (by omega)
      rw [hstep, ih (k + 1) (by omega), hd1, hd2]
      simp

/-- Helper: full characterization of one `HI` segment's effect on the
open claim's diagnosis dictionary. -/
theorem hiFold_spec (es : List String) (c : Claim) :
    (List.range' 1 (es.length - 1)).foldl (hiStep es) c =
      { c with diagnosis :=
          { primary := if elemAt es 1 = "" then c.diagnosis.primary
                       else clean_code (elemAt es 1)
            secondary := c.diagnosis.secondary ++
              ((es.drop 2).filter (fun x => x ≠ "")).map clean_code } } := by
  by_cases hlen : es.length ≤ 1
  · have h0 : es.length - 1 = 0 := by omega
    have h1 : elemAt es 1 = "" := List.getD_eq_default es "" hlen
    have h2 : es.drop 2 = ([] : List String) := List.drop_eq_nil_of_le (by omega)
    rw [h0, show List.range' 1 0 = [] from rfl, List.foldl_nil, h1, h2]
    simp
  · push_neg at hlen
    have h0 : es.length - 1 = (es.length - 2) + 1 := by omega
    rw [h0,
      show List.range' 1 (es.length - 2 + 1) = 1 :: List.range' 2 (es.length - 2) from rfl,
      List.foldl_cons]
    have htake : (es.drop 2).take (es.length - 2) = es.drop 2 := by
      apply List.take_of_length_le
      simp
    by_cases hne : elemAt es 1 = ""
    · have hstep : hiStep es c 1 = c := by simp [hiStep, hne]
      rw [hstep, hiFoldl_ge_two es (es.length - 2) 2 (by omega) c, htake]
      simp [hne]
    · have hstep : hiStep es c 1 =
          { c with diagnosis := { c.diagnosis with primary := clean_code (elemAt es 1) } } := by
        simp [hiStep, hne]
      rw [hstep, hiFoldl_ge_two es (es.length - 2) 2 (by omega) _, htake]
      simp [hne]

/-- Claim C5 amended: while a claim is open, an `HI` segment routes the value
at element position 1 — when non-empty, qualifier-stripped — to the
claim's primary code, and every non-empty value at positions 2 and
beyond to the secondary list in encountered order, each
qualifier-stripped per `clean_code`; an empty element 1 leaves the
primary untouched while later values still become secondary. -/
theorem c5_hi_routing (st : St) (es : List String) (c : Claim)
    (hopen : st.current_claim = some c) (hid : es.headD "" = "HI") :
    (step st es).current_claim =
      some { c with diagnosis :=
        { primary := if elemAt es 1 = "" then c.diagnosis.primary
                     else clean_code (elemAt es 1)
          secondary := c.diagnosis.secondary ++
            ((es.drop 2).filter (fun x => x ≠ "")).map clean_code } } := by
  rw [step_tag_hi st es hid, if_pos (by rw [hopen]; rfl)]
  simp only [stepHI, hopen, Option.map_some']
  rw [hiFold_spec]

/-- Claim C5 witness: the routing statement applied to the spec's example
segment `HI*ABK:K0230*K0231` under a freshly opened claim, yielding
primary `K0230` and secondary `["K0231"]`. -/
theorem c5_witness :
    (step { initSt with current_claim := some (newClaim ["CLM", "A", "10"]) }
        ["HI", "ABK:K0230", "K0231"]).current_claim =
      some { newClaim ["CLM", "A", "10"] with
             diagnosis := { primary := "K0230", secondary := ["K0231"] } } := by
  rw [c5_hi_routing { initSt with current_claim := some (newClaim ["CLM", "A", "10"]) }
    ["HI", "ABK:K0230", "K0231"] (newClaim ["CLM", "A", "10"]) rfl rfl]
  decide

/-- Helper: positional access into a segment padded with explicit empty
elements agrees with access into the original segment at every index. -/
theorem elemAt_append_pad (es : List String) (k i : Nat) :
    elemAt (es ++ List.replicate k "") i = elemAt es i := by
  unfold elemAt
  by_cases h : i < es.length
  · rw [List.getD_append _ _ _ _ h]
  · push_neg at h
    rw [List.getD_eq_default es "" h]
    by_cases h2 : i < (es ++ List.replicate k "").length
    · rw [List.getD_eq_getElem _ _ h2, List.getElem_append_right h]
      simp
    · push_neg at h2
      exact List.getD_eq_default _ _ h2

/-- Helper: padding never changes the segment tag. -/
theorem headD_append_pad (es : List String) (k : Nat) :
    (es ++ List.replicate k "").headD "" = es.headD "" := by
  cases es with
  | nil =>
    cases k with
    | zero => rfl
    | succ n => rfl
  | cons a l => rfl

/-- Helper: the empty-string padding contributes nothing to the filtered
tail of a diagnosis segment. -/
theorem drop_pad_filter (es : List String) (k n : Nat) :
    ((es ++ List.replicate k "").drop n).filter (fun x => x ≠ "") =
      (es.drop n).filter (fun x => x ≠ "") := by
  rw [List.drop_append_eq_append_drop, List.filter_append]
  have h2 : ((List.replicate k "").drop (n - es.length)).filter (fun x => x ≠ "") = [] := by
    rw [List.filter_eq_nil_iff]
    intro a ha
    have haa : a = "" := List.eq_of_mem_replicate (List.mem_of_mem_drop ha)
    simp [haa]
  rw [h2, List.append_nil]

/-- Claim C8 amended: processing never fails on a short segment, and in
every branch an absent element behaves exactly like an explicitly
present empty-string element — stated universally: for every state,
every segment of every length and every amount of padding, processing
the segment equals processing it with the missing elements appended as
empty strings.  The one exception is the subscriber relationship of a
truncated `SBR`, whose default is `"self"` rather than the empty string
(for `SBR` with more than two elements the equivalence holds as well).
The zero defaults come from `safe_float`/`safe_int` of the empty
string: a bare `CLM` opens a claim with totalCharge `0.0` and a bare
`LX` appends a line with lineNumber `0`. -/
theorem c8_amended :
    (∀ (es : List String) (i : Nat), es.length ≤ i → elemAt es i = "") ∧
    (∀ (st : St) (es : List String) (k : Nat), es.headD "" ≠ "SBR" →
        step st (es ++ List.replicate k "") = step st es) ∧
    (∀ (st : St) (es : List String) (k : Nat), es.headD "" = "SBR" → es.length > 2 →
        step st (es ++ List.replicate k "") = step st es) ∧
    (∀ (st : St) (es : List String), es.headD "" = "SBR" → es.length ≤ 2 →
        (step st es).subscriber =
          { st.subscriber with relationship := some "self", groupNumber := some "",
                               planType := some "" }) ∧
    (∀ st : St, (step st ["CLM"]).current_claim = some (newClaim ["CLM"]) ∧
        (newClaim ["CLM"]).totalCharge = pyZero) ∧
    (∀ (st : St) (c : Claim),
        (step { st with current_claim := some c } ["LX"]).current_claim =
          some { c with serviceLines := c.serviceLines ++ [newServiceLine ["LX"]] } ∧
        (newServiceLine ["LX"]).lineNumber = 0) := by
  refine ⟨fun es i h => List.getD_eq_default es "" h, ?_, ?_, ?_,
    fun st => ⟨rfl, rfl⟩, fun st c => ⟨rfl, rfl⟩⟩
  · intro st es k hsbr
    have hpad : (es ++ List.replicate k "").headD "" = es.headD "" := headD_append_pad es k
    by_cases h1 : es.headD "" = "ISA"
    · rw [step_tag_isa st _ (hpad.trans h1), step_tag_isa st es h1]
      simp only [stepISA, elemAt_append_pad]
    by_cases h2 : es.headD "" = "GS"
    · rw [step_tag_gs st _ (hpad.trans h2), step_tag_gs st es h2]
    by_cases h3 : es.headD "" = "ST"
    · rw [step_tag_st st _ (hpad.trans h3), step_tag_st st es h3]
      simp only [stepST, elemAt_append_pad]
    by_cases h4 : es.headD "" = "BHT"
    · rw [step_tag_bht st _ (hpad.trans h4), step_tag_bht st es h4]
      simp only [stepBHT, elemAt_append_pad]
    by_cases h5 : es.headD "" = "NM1"
    · rw [step_tag_nm1 st _ (hpad.trans h5), step_tag_nm1 st es h5]
      simp only [stepNM1, elemAt_append_pad]
    by_cases h6 : es.headD "" = "N3"
    · rw [step_tag_n3 st _ (hpad.trans h6), step_tag_n3 st es h6]
      simp only [stepN3, elemAt_append_pad]
    by_cases h7 : es.headD "" = "N4"
    · rw [step_tag_n4 st _ (hpad.trans h7), step_tag_n4 st es h7]
      simp only [stepN4, elemAt_append_pad]
    by_cases h8 : es.headD "" = "PER"
    · rw [step_tag_per st _ (hpad.trans h8), step_tag_per st es h8]
      simp only [stepPER, elemAt_append_pad]
    by_cases h10 : es.headD "" = "DMG"
    · rw [step_tag_dmg st _ (hpad.trans h10), step_tag_dmg st es h10]
      simp only [stepDMG, elemAt_append_pad]
    by_cases h11 : es.headD "" = "CLM"
    · rw [step_eq_stepCLM st _ (hpad.trans h11), step_eq_stepCLM st es h11]
      simp only [stepCLM, newClaim, elemAt_append_pad]
    by_cases h12 : es.headD "" = "HI"
    · rw [step_tag_hi st _ (hpad.trans h12), step_tag_hi st es h12]
      by_cases hs : st.current_claim.isSome = true
      · rw [if_pos hs, if_pos hs]
        simp only [stepHI]
        rcases st.current_claim with _ | c
        · rfl
        · simp only [Option.map_some']
          rw [hiFold_spec, hiFold_spec, elemAt_append_pad, drop_pad_filter]
      · rw [if_neg hs, if_neg hs]
    by_cases h13 : es.headD "" = "DTP"
    · rw [step_tag_dtp st _ (hpad.trans h13), step_tag_dtp st es h13]
      by_cases hs : st.current_claim.isSome = true
      · rw [if_pos hs, if_pos hs]
        simp only [stepDTPclaim, elemAt_append_pad]
      · rw [if_neg hs, if_neg hs]
    by_cases h14 : es.headD "" = "REF"
    · rw [step_tag_ref st _ (hpad.trans h14), step_tag_ref st es h14]
      by_cases hs : st.current_claim.isSome = true
      · rw [if_pos hs, if_pos hs]
        simp only [stepREF, elemAt_append_pad]
      · rw [if_neg hs, if_neg hs]
    by_cases h15 : es.headD "" = "LX"
    · rw [step_tag_lx st _ (hpad.trans h15), step_tag_lx st es h15]
      by_cases hs : st.current_claim.isSome = true
      · rw [if_pos hs, if_pos hs]
        simp only [stepLX, newServiceLine, elemAt_append_pad]
      · rw [if_neg hs, if_neg hs]
    by_cases h16 : es.headD "" = "SV1"
    · rw [step_tag_sv1 st _ (hpad.trans h16), step_tag_sv1 st es h16]
      by_cases hs : st.current_claim.isSome = true ∧ currentLines st ≠ []
      · rw [if_pos hs, if_pos hs]
        have hsv : sv1Line (es ++ List.replicate k "") = sv1Line es := by
          funext l
          simp only [sv1Line, elemAt_append_pad]
        simp only [stepSV1, elemAt_append_pad, hsv]
      · rw [if_neg hs, if_neg hs]
    have hmem : es.headD "" ∉ (["ISA", "GS", "ST", "BHT", "NM1", "N3", "N4", "PER", "SBR",
        "DMG", "CLM", "HI", "DTP", "REF", "LX", "SV1"] : List String) := by
      simp only [List.mem_cons, List.not_mem_nil, or_false]
      push_neg
      exact ⟨h1, h2, h3, h4, h5, h6, h7, h8, hsbr, h10, h11, h12, h13, h14, h15, h16⟩
    have hmem2 : (es ++ List.replicate k "").headD "" ∉
        (["ISA", "GS", "ST", "BHT", "NM1", "N3", "N4", "PER", "SBR",
          "DMG", "CLM", "HI", "DTP", "REF", "LX", "SV1"] : List String) := by
      rw [headD_append_pad]
      exact hmem
    rw [step_tag_other st _ hmem2, step_tag_other st es hmem]
  · intro st es k hsbr hlen
    have hpad : (es ++ List.replicate k "").headD "" = es.headD "" := headD_append_pad es k
    rw [step_tag_sbr st _ (hpad.trans hsbr), step_tag_sbr st es hsbr]
    have c1 : (es ++ List.replicate k "").length > 2 := by
      rw [List.length_append]
      omega
    simp only [stepSBR, elemAt_append_pad]
    rw [if_pos c1, if_pos hlen]
  · intro st es hsbr hlen
    rw [step_tag_sbr st es hsbr]
    have e3 : elemAt es 3 = "" := List.getD_eq_default es "" (by omega)
    have e5 : elemAt es 5 = "" := List.getD_eq_default es "" (by omega)
    simp only [stepSBR, e3, e5]
    rw [if_neg (by omega)]

/-- Claim C8 witness: the padding equivalence at a truncated `NM1*85`
(missing its id elements) and at a four-element `SBR`, the `"self"`
default at a bare `SBR`, and the empty default of the missing element 3
of a truncated `DTP`. -/
theorem c8_witness :
    step initSt (["NM1", "85", "2", "ACME"] ++ List.replicate 6 "") =
      step initSt ["NM1", "85", "2", "ACME"] ∧
    step initSt (["SBR", "P", "18", "GRP"] ++ List.replicate 2 "") =
      step initSt ["SBR", "P", "18", "GRP"] ∧
    (step initSt ["SBR"]).subscriber =
      { initSt.subscriber with relationship := some "self", groupNumber := some "",
                               planType := some "" } ∧
    elemAt ["DTP", "472"] 3 = "" :=
  ⟨c8_amended.2.1 initSt ["NM1", "85", "2", "ACME"] 6 (by decide),
   c8_amended.2.2.1 initSt ["SBR", "P", "18", "GRP"] 2 rfl (by decide),
   c8_amended.2.2.2.1 initSt ["SBR"] rfl (by decide),
   c8_amended.1 ["DTP", "472"] 3 (by decide)⟩

end X12
